import Mathlib

/-
Verification development for Spherique (src/Spherique.py), a bounded 2D
particle simulation with Verlet integration, a uniform-grid broad phase,
mass-weighted collision response and a spawn/step scheduler writing a
spawn trace.

Embedding conventions:
* Python floats are modelled by exact rationals (ℚ).  The float literals
  0.9 and 0.95 are modelled by the rationals 9/10 and 19/20.
* Library functions that have no exact rational counterpart
  (math.sqrt, math.cos, math.sin, math.pi) and the seeded pseudo-random
  generator (the stream of outputs of random.random() after
  random.seed(42)) are threaded explicitly as a parameter record `Prims`;
  theorems that depend on their analytic properties take those properties
  as hypotheses (for instance, sqrtF d * sqrtF d = d for the square root).
* Mutable Python objects become values; the ball list is mutated by
  index (the grid stores indices, which coincides with Python object
  identity since every Ball object occurs exactly once in the list).
* The CSV spawn trace is modelled as a list of records `TraceRec`
  (serialisation to bytes is an injective function of the record list).
* PIL's Image.getpixel raises IndexError on coordinates outside the
  image; it is modelled in the Except monad.
-/

/-- 2D vector over ℚ, modelling pygame.math.Vector2. -/
structure Vec2 where
  x : ℚ
  y : ℚ
deriving DecidableEq, Inhabited

instance : Zero Vec2 := ⟨⟨0, 0⟩⟩

instance : Add Vec2 := ⟨fun a b => ⟨a.x + b.x, a.y + b.y⟩⟩

instance : Sub Vec2 := ⟨fun a b => ⟨a.x - b.x, a.y - b.y⟩⟩

instance : Neg Vec2 := ⟨fun a => ⟨-a.x, -a.y⟩⟩

instance : SMul ℚ Vec2 := ⟨fun q v => ⟨q * v.x, q * v.y⟩⟩

@[simp] theorem Vec2.add_x (a b : Vec2) : (a + b).x = a.x + b.x := rfl

@[simp] theorem Vec2.add_y (a b : Vec2) : (a + b).y = a.y + b.y := rfl

@[simp] theorem Vec2.sub_x (a b : Vec2) : (a - b).x = a.x - b.x := rfl

@[simp] theorem Vec2.sub_y (a b : Vec2) : (a - b).y = a.y - b.y := rfl

@[simp] theorem Vec2.neg_x (a : Vec2) : (-a).x = -a.x := rfl

@[simp] theorem Vec2.neg_y (a : Vec2) : (-a).y = -a.y := rfl

@[simp] theorem Vec2.smul_x (q : ℚ) (a : Vec2) : (q • a).x = q * a.x := rfl

@[simp] theorem Vec2.smul_y (q : ℚ) (a : Vec2) : (q • a).y = q * a.y := rfl

@[simp] theorem Vec2.zero_x : (0 : Vec2).x = 0 := rfl

@[simp] theorem Vec2.zero_y : (0 : Vec2).y = 0 := rfl

theorem Vec2.ext_xy {a b : Vec2} (hx : a.x = b.x) (hy : a.y = b.y) : a = b := by
  cases a; cases b; simp_all

/-- Vector2.length_squared(): x*x + y*y. -/
def Vec2.length_squared (v : Vec2) : ℚ := v.x * v.x + v.y * v.y

/- Configuration constants from class Config (src/Spherique.py lines 5-18). -/
namespace Config

def WIDTH : ℚ := 1000

def HEIGHT : ℚ := 1000

def GRAVITY : Vec2 := ⟨0, 981⟩

def BOUNCE_LOSS : ℚ := 9 / 10

def COLLISION_DAMPING : ℚ := 19 / 20

def MIN_RADIUS : ℚ := 5

def MAX_RADIUS : ℚ := 28

def SPAWN_INTERVAL : ℕ := 1

def FIXED_DT : ℚ := 1 / 60

def TOTAL_STEPS : ℕ := 1000

def SUBSTEPS : ℕ := 8

def MAX_OBJECTS : ℕ := 900

def CELL_SIZE : ℚ := MAX_RADIUS * 2

end Config

/-- The external numeric/random primitives the source calls into:
the stream of successive outputs of random.random() after the fixed
random.seed(42) in Simulation.__init__, and the math-library functions.
A run of the program corresponds to one fixed value of this record. -/
structure Prims where
  rand : ℕ → ℚ
  cosF : ℚ → ℚ
  sinF : ℚ → ℚ
  sqrtF : ℚ → ℚ
  piF : ℚ

/-- random.uniform(a, b) = a + (b - a) * random.random(); consumes one
draw of the stream (modelled from the Python standard library, which is
outside src/). -/
def uniform (p : Prims) (k : ℕ) (a b : ℚ) : ℚ × ℕ := (a + (b - a) * p.rand k, k + 1)

/-- random.randint(a, b): an integer in [a, b]; modelled as consuming
one draw of the stream (the Python standard library implementation is
outside src/; the claims do not depend on its exact value). -/
def randint (p : Prims) (k : ℕ) (a b : ℤ) : ℤ × ℕ :=
  (a + ⌊((b : ℚ) + 1 - a) * p.rand k⌋, k + 1)

/-- Particle state: class Ball (src/Spherique.py lines 20-28).
mass is stored at construction as math.pi * radius**2. -/
structure Ball where
  position : Vec2
  old_position : Vec2
  acceleration : Vec2
  radius : ℚ
  mass : ℚ
  step_added : ℕ
  color : ℤ × ℤ × ℤ
deriving DecidableEq, Inhabited

/-- Ball.__init__ (lines 21-28): position copied into old_position,
acceleration zeroed, mass = math.pi * radius**2, and when no color is
given three random.randint(80, 255) draws produce the placeholder color.
Returns the ball together with the advanced draw counter. -/
def Ball.init (p : Prims) (k : ℕ) (position : Vec2) (radius : ℚ) (step_added : ℕ)
    (color : Option (ℤ × ℤ × ℤ)) : Ball × ℕ :=
  match color with
  | some c =>
      (⟨position, position, 0, radius, p.piF * radius ^ 2, step_added, c⟩, k)
  | none =>
      let (cr, k1) := randint p k 80 255
      let (cg, k2) := randint p k1 80 255
      let (cb, k3) := randint p k2 80 255
      (⟨position, position, 0, radius, p.piF * radius ^ 2, step_added, (cr, cg, cb)⟩, k3)

/-- Ball.accelerate (lines 30-32): acceleration += force / mass, guarded
by mass > 0. -/
def Ball.accelerate (b : Ball) (force : Vec2) : Ball :=
  if 0 < b.mass then { b with acceleration := b.acceleration + (1 / b.mass) • force }
  else b

/-- Ball.update (lines 34-38): velocity = position - old_position;
old_position = position.copy(); position += velocity + acceleration*dt*dt;
acceleration = (0, 0). -/
def Ball.update (b : Ball) (dt : ℚ) : Ball :=
  let velocity := b.position - b.old_position
  { b with
    position := b.position + velocity + (dt * dt) • b.acceleration,
    old_position := b.position,
    acceleration := 0 }

/-- Ball.apply_constraints (lines 40-50): per-axis if/elif clamp with
velocity reflection scaled by BOUNCE_LOSS, then
old_position = position - velocity * COLLISION_DAMPING. -/
def Ball.apply_constraints (b : Ball) : Ball :=
  let v := b.position - b.old_position
  let px_vx : ℚ × ℚ :=
    if b.position.x - b.radius < 0 then (b.radius, -v.x * Config.BOUNCE_LOSS)
    else if b.position.x + b.radius > Config.WIDTH then
      (Config.WIDTH - b.radius, -v.x * Config.BOUNCE_LOSS)
    else (b.position.x, v.x)
  let py_vy : ℚ × ℚ :=
    if b.position.y - b.radius < 0 then (b.radius, -v.y * Config.BOUNCE_LOSS)
    else if b.position.y + b.radius > Config.HEIGHT then
      (Config.HEIGHT - b.radius, -v.y * Config.BOUNCE_LOSS)
    else (b.position.y, v.y)
  let pos : Vec2 := ⟨px_vx.1, py_vy.1⟩
  { b with
    position := pos,
    old_position := pos - Config.COLLISION_DAMPING • (⟨px_vx.2, py_vy.2⟩ : Vec2) }

/-- Spawn-trace record: one CSV line of ball_spawns.csv
(src/Spherique.py line 137): step, position, radius, old position,
placeholder color. -/
structure TraceRec where
  step : ℕ
  x : ℚ
  y : ℚ
  radius : ℚ
  prev_x : ℚ
  prev_y : ℚ
  r : ℤ
  g : ℤ
  b : ℤ
deriving DecidableEq, Inhabited

/-- Simulation state: the live ball list (insertion order), the step
counter, the position in the random stream, and the accumulated trace
(the csv_buffer of calculate_positions). -/
structure SimState where
  balls : List Ball
  current_step : ℕ
  randIdx : ℕ
  trace : List TraceRec
deriving Inhabited

/-- Simulation.__init__ (lines 56-71) as far as the core state goes:
empty ball list, step 0, generator freshly seeded (seed 42, never
time-based), empty trace. -/
def Simulation.init : SimState :=
  { balls := [], current_step := 0, randIdx := 0, trace := [] }

/-- Simulation.add_ball (lines 73-76): if len(balls) >= MAX_OBJECTS,
pop the front (earliest added), then append. -/
def Simulation.add_ball (balls : List Ball) (b : Ball) : List Ball :=
  if Config.MAX_OBJECTS ≤ balls.length then balls.tail ++ [b] else balls ++ [b]

/-- Simulation.get_cell (lines 78-79): floor division of each position
component by CELL_SIZE (Python // on floats is floor division). -/
def Simulation.get_cell (pos : Vec2) : ℤ × ℤ :=
  (⌊pos.x / Config.CELL_SIZE⌋, ⌊pos.y / Config.CELL_SIZE⌋)

/-- Simulation.update_grid (lines 81-84): rebuild the bucket map; the
bucket of a cell holds (in iteration order, i.e. ascending index) the
indices of the balls whose position is in that cell.  Python buckets hold
object references; indices are equivalent since every Ball object occurs
exactly once in the list. -/
def Simulation.update_grid (balls : List Ball) : ℤ × ℤ → List ℕ :=
  fun c =>
    (List.range balls.length).filter
      (fun i => decide (Simulation.get_cell (balls.getD i default).position = c))

/-- Simulation.get_nearby (lines 86-91): all indices stored in the 3x3
block of cells around the given cell, in (dx, dy) lexicographic order. -/
def Simulation.get_nearby (grid : ℤ × ℤ → List ℕ) (c : ℤ × ℤ) : List ℕ :=
  ([-1, 0, 1] : List ℤ).flatMap
    (fun dx => ([-1, 0, 1] : List ℤ).flatMap (fun dy => grid (c.1 + dx, c.2 + dy)))

/-- The body of the inner pair loop of Simulation.solve_collisions
(lines 98-109) for one ordered pair (b1, b2): when the overlap guard
0 < dist_sq < (r1+r2)^2 holds, push b1 and b2 apart along the unit
normal by the mass-weighted, damping-scaled half-overlap; otherwise
leave both unchanged. -/
def Simulation.collidePair (p : Prims) (b1 b2 : Ball) : Ball × Ball :=
  let delta := b1.position - b2.position
  let dist_sq := delta.length_squared
  let min_d := b1.radius + b2.radius
  if 0 < dist_sq ∧ dist_sq < min_d ^ 2 then
    let dist := p.sqrtF dist_sq
    let normal := (1 / dist) • delta
    let overlap := (min_d - dist) * (1 / 2)
    let total_mass := b1.mass + b2.mass
    let ratio1 := b2.mass / total_mass
    let ratio2 := b1.mass / total_mass
    let sep := overlap • normal
    ({ b1 with position := b1.position + (Config.COLLISION_DAMPING * ratio1) • sep },
     { b2 with position := b2.position - (Config.COLLISION_DAMPING * ratio2) • sep })
  else (b1, b2)

/-- Simulation.solve_collisions (lines 93-109): rebuild the grid from the
current positions, then for each ball index i in order, query the 3x3
neighborhood of the cell of the (possibly already corrected) current
position of ball i, and resolve each ordered pair (i, j), j ≠ i, reading
and writing the current list state. -/
def Simulation.solve_collisions (p : Prims) (balls : List Ball) : List Ball :=
  let grid := Simulation.update_grid balls
  (List.range balls.length).foldl
    (fun bs i =>
      (Simulation.get_nearby grid (Simulation.get_cell (bs.getD i default).position)).foldl
        (fun bs2 j =>
          if i = j then bs2
          else
            let r := Simulation.collidePair p (bs2.getD i default) (bs2.getD j default)
            (bs2.set i r.1).set j r.2)
        bs)
    balls

/-- One substep of Simulation.update (lines 113-117): gravity to every
ball, one collision pass, boundary constraints, then integration. -/
def Simulation.substep (p : Prims) (sub_dt : ℚ) (balls : List Ball) : List Ball :=
  let balls1 := balls.map (fun b => b.accelerate Config.GRAVITY)
  let balls2 := Simulation.solve_collisions p balls1
  let balls3 := balls2.map Ball.apply_constraints
  balls3.map (fun b => b.update sub_dt)

/-- The `for _ in range(SUBSTEPS)` loop of Simulation.update. -/
def Simulation.updateLoop (p : Prims) (sub_dt : ℚ) : ℕ → List Ball → List Ball
  | 0, balls => balls
  | n + 1, balls => Simulation.updateLoop p sub_dt n (Simulation.substep p sub_dt balls)

/-- Simulation.update (lines 111-117): SUBSTEPS substeps at dt/SUBSTEPS. -/
def Simulation.update (p : Prims) (dt : ℚ) (balls : List Ball) : List Ball :=
  Simulation.updateLoop p (dt / (Config.SUBSTEPS : ℚ)) Config.SUBSTEPS balls

/-- The radius draw of the spawn branch (line 131):
uniform(MIN_RADIUS, MAX_RADIUS). -/
def Simulation.spawnRK (p : Prims) (s : SimState) : ℚ × ℕ :=
  uniform p s.randIdx Config.MIN_RADIUS Config.MAX_RADIUS

/-- The Ball(...) construction of the spawn branch (line 132), at the
fixed origin, with the drawn radius. -/
def Simulation.spawnBK (p : Prims) (s : SimState) : Ball × ℕ :=
  Ball.init p (Simulation.spawnRK p s).2 ⟨Config.WIDTH / 2, Config.HEIGHT / 2⟩
    (Simulation.spawnRK p s).1 s.current_step none

/-- The angle draw of the spawn branch (line 133): uniform(0, 2*pi). -/
def Simulation.spawnAK (p : Prims) (s : SimState) : ℚ × ℕ :=
  uniform p (Simulation.spawnBK p s).2 0 (2 * p.piF)

/-- The spawn velocity (line 134): magnitude 40 in direction angle. -/
def Simulation.spawnVel (p : Prims) (s : SimState) : Vec2 :=
  ⟨p.cosF (Simulation.spawnAK p s).1 * 40, p.sinF (Simulation.spawnAK p s).1 * 40⟩

/-- The ball built by the spawn branch of calculate_positions (lines
130-135): the constructed ball with old_position overwritten to
position - v * FIXED_DT (line 135); also returns the advanced draw
counter. -/
def Simulation.spawnBall (p : Prims) (s : SimState) : Ball × ℕ :=
  ({ (Simulation.spawnBK p s).1 with
      old_position := (Simulation.spawnBK p s).1.position -
        Config.FIXED_DT • Simulation.spawnVel p s },
   (Simulation.spawnAK p s).2)

/-- The spawn branch of Simulation.calculate_positions (lines 129-137):
build the spawn ball, add it with add_ball, and append one trace record
built from the new ball at the moment of spawn. -/
def Simulation.spawnStep (p : Prims) (s : SimState) : SimState :=
  let b := (Simulation.spawnBall p s).1
  { s with
    balls := Simulation.add_ball s.balls b,
    randIdx := (Simulation.spawnBall p s).2,
    trace := s.trace ++
      [⟨s.current_step, b.position.x, b.position.y, b.radius,
        b.old_position.x, b.old_position.y, b.color.1, b.color.2.1, b.color.2.2⟩] }

/-- One iteration of the while loop of Simulation.calculate_positions
(lines 128-141): spawn when current_step % SPAWN_INTERVAL == 0 and the
live count is strictly below MAX_OBJECTS, then one outer physics update
at FIXED_DT, then increment the step counter. -/
def Simulation.stepOnce (p : Prims) (s : SimState) : SimState :=
  let s1 :=
    if s.current_step % Config.SPAWN_INTERVAL = 0 ∧ s.balls.length < Config.MAX_OBJECTS
    then Simulation.spawnStep p s else s
  { s1 with
    balls := Simulation.update p Config.FIXED_DT s1.balls,
    current_step := s1.current_step + 1 }

/-- The while loop of calculate_positions, by fuel; each iteration
increments current_step by one, so fuel TOTAL_STEPS - current_step
reproduces `while current_step < TOTAL_STEPS`. -/
def Simulation.runSteps (p : Prims) : ℕ → SimState → SimState
  | 0, s => s
  | n + 1, s => Simulation.runSteps p n (Simulation.stepOnce p s)

/-- Simulation.calculate_positions (lines 126-143), up to writing the
accumulated trace out: run the step loop to TOTAL_STEPS. -/
def Simulation.calculate_positions (p : Prims) (s : SimState) : SimState :=
  Simulation.runSteps p (Config.TOTAL_STEPS - s.current_step) s

/-- The color-source image: a WIDTH x HEIGHT pixel grid (the input image
is resized to (WIDTH, HEIGHT) in Simulation.__init__, line 69). -/
structure Image where
  w : ℤ
  h : ℤ
  pix : ℤ → ℤ → ℤ × ℤ × ℤ

/-- Python int() on a float truncates toward zero. -/
def pytrunc (q : ℚ) : ℤ := if 0 ≤ q then ⌊q⌋ else -⌊-q⌋

/-- PIL Image.getpixel: returns the pixel inside the image, raises
IndexError (modelled as Except.error) outside it. -/
def Simulation.getpixel (img : Image) (xi yi : ℤ) : Except Unit (ℤ × ℤ × ℤ) :=
  if 0 ≤ xi ∧ xi < img.w ∧ 0 ≤ yi ∧ yi < img.h then Except.ok (img.pix xi yi)
  else Except.error ()

/-- Stable insertion keeping ascending step_added order: the new element
goes after every element with step_added ≤ its own. -/
def insertByStep (b : Ball) : List Ball → List Ball
  | [] => [b]
  | c :: cs => if c.step_added ≤ b.step_added then c :: insertByStep b cs else b :: c :: cs

/-- sorted(self.balls, key=lambda x: x.step_added) (line 148): Python
sorted is a stable ascending sort. -/
def sortedByStepAdded (balls : List Ball) : List Ball :=
  balls.foldl (fun acc b => insertByStep b acc) []

/-- The loop of Simulation.map_colors (lines 150-157): walk the trace
lines in parallel with the sorted balls; when the lines outnumber the
balls, break (the remaining lines are not written to the output); for
each pair, sample the image at the truncated final ball position
(propagating an IndexError) and rewrite fields 6..8 of the line with the
sampled color. -/
def Simulation.map_colorsGo (img : Image) :
    List Ball → List TraceRec → Except Unit (List TraceRec)
  | _, [] => Except.ok []
  | [], _ :: _ => Except.ok []
  | b :: bs, line :: ls => do
      let c ← Simulation.getpixel img (pytrunc b.position.x) (pytrunc b.position.y)
      let rest ← Simulation.map_colorsGo img bs ls
      pure ({ line with r := c.1, g := c.2.1, b := c.2.2 } :: rest)

/-- Simulation.map_colors (lines 146-159): rewrite the trace colors from
the image samples at the balls' final positions, matching the i-th line
with the i-th ball in ascending spawn order. -/
def Simulation.map_colors (img : Image) (balls : List Ball) (lines : List TraceRec) :
    Except Unit (List TraceRec) :=
  Simulation.map_colorsGo img (sortedByStepAdded balls) lines

/-- End of calculate_positions (lines 142-144): the trace is written
out, and map_colors runs only when the input image was loaded
(`if self.input_image: self.map_colors()`); when it is None the written
trace is left as produced. -/
def Simulation.finishRun (imgOpt : Option Image) (balls : List Ball)
    (lines : List TraceRec) : Except Unit (List TraceRec) :=
  match imgOpt with
  | none => Except.ok lines
  | some img => Simulation.map_colors img balls lines

/- Helper lemmas (shared between claims). -/

/-- A fold whose body preserves list length preserves list length. -/
theorem length_foldl_preserve {α : Type} (f : List Ball → α → List Ball)
    (hf : ∀ bs a, (f bs a).length = bs.length) :
    ∀ (l : List α) (bs : List Ball), (l.foldl f bs).length = bs.length := by
  intro l
  induction l with
  | nil => intro bs; rfl
  | cons a l ih => intro bs; rw [List.foldl_cons, ih, hf]

/-- One collision pass never adds or removes balls. -/
theorem Simulation.solve_collisions_length (p : Prims) (balls : List Ball) :
    (Simulation.solve_collisions p balls).length = balls.length := by
  unfold Simulation.solve_collisions
  refine length_foldl_preserve _ ?_ _ _
  intro bs i
  refine length_foldl_preserve _ ?_ _ _
  intro bs2 j
  by_cases hij : i = j
  · simp [hij]
  · simp [hij, List.length_set]

/-- One substep never adds or removes balls. -/
theorem Simulation.substep_length (p : Prims) (sub_dt : ℚ) (balls : List Ball) :
    (Simulation.substep p sub_dt balls).length = balls.length := by
  unfold Simulation.substep
  simp [Simulation.solve_collisions_length]

/-- The substep loop never adds or removes balls. -/
theorem Simulation.updateLoop_length (p : Prims) (sub_dt : ℚ) :
    ∀ (n : ℕ) (balls : List Ball),
      (Simulation.updateLoop p sub_dt n balls).length = balls.length := by
  intro n
  induction n with
  | zero => intro balls; rfl
  | succ n ih =>
      intro balls
      rw [Simulation.updateLoop, ih, Simulation.substep_length]

/-- One outer physics update never adds or removes balls. -/
theorem Simulation.update_length (p : Prims) (dt : ℚ) (balls : List Ball) :
    (Simulation.update p dt balls).length = balls.length :=
  Simulation.updateLoop_length p _ _ balls

/-- Below capacity, add_ball is a plain append (the eviction branch is
not taken). -/
theorem Simulation.add_ball_of_lt (balls : List Ball) (b : Ball)
    (h : balls.length < Config.MAX_OBJECTS) :
    Simulation.add_ball balls b = balls ++ [b] := by
  unfold Simulation.add_ball
  rw [if_neg (not_le.mpr h)]

/-- At (or above) capacity, add_ball first removes the front of the
list - the earliest-added live ball - and then appends. -/
theorem Simulation.add_ball_of_cap (balls : List Ball) (b : Ball)
    (h : Config.MAX_OBJECTS ≤ balls.length) :
    Simulation.add_ball balls b = balls.tail ++ [b] := by
  unfold Simulation.add_ball
  rw [if_pos h]

/-- One scheduler step keeps the live count at or below capacity. -/
theorem Simulation.stepOnce_length_le (p : Prims) (s : SimState)
    (hs : s.balls.length ≤ Config.MAX_OBJECTS) :
    (Simulation.stepOnce p s).balls.length ≤ Config.MAX_OBJECTS := by
  unfold Simulation.stepOnce
  by_cases hg : s.current_step % Config.SPAWN_INTERVAL = 0 ∧
      s.balls.length < Config.MAX_OBJECTS
  · simp only [if_pos hg, Simulation.update_length]
    unfold Simulation.spawnStep
    simp only [Simulation.add_ball_of_lt _ _ hg.2, List.length_append, List.length_cons,
      List.length_nil]
    omega
  · simp only [if_neg hg, Simulation.update_length]
    exact hs

/-- One scheduler step never decreases the live count. -/
theorem Simulation.stepOnce_length_ge (p : Prims) (s : SimState) :
    s.balls.length ≤ (Simulation.stepOnce p s).balls.length := by
  unfold Simulation.stepOnce
  by_cases hg : s.current_step % Config.SPAWN_INTERVAL = 0 ∧
      s.balls.length < Config.MAX_OBJECTS
  · simp only [if_pos hg, Simulation.update_length]
    unfold Simulation.spawnStep
    simp only [Simulation.add_ball_of_lt _ _ hg.2, List.length_append]
    omega
  · simp only [if_neg hg, Simulation.update_length]
    exact le_refl _

/-- The step loop keeps the live count at or below capacity. -/
theorem Simulation.runSteps_length_le (p : Prims) :
    ∀ (n : ℕ) (s : SimState), s.balls.length ≤ Config.MAX_OBJECTS →
      (Simulation.runSteps p n s).balls.length ≤ Config.MAX_OBJECTS := by
  intro n
  induction n with
  | zero => intro s hs; exact hs
  | succ n ih =>
      intro s hs
      exact ih _ (Simulation.stepOnce_length_le p s hs)

/-- The step loop never decreases the live count. -/
theorem Simulation.runSteps_length_ge (p : Prims) :
    ∀ (n : ℕ) (s : SimState),
      s.balls.length ≤ (Simulation.runSteps p n s).balls.length := by
  intro n
  induction n with
  | zero => intro s; exact le_refl _
  | succ n ih =>
      intro s
      exact le_trans (Simulation.stepOnce_length_ge p s) (ih _)

/-- A concrete instance of the external primitives, used by witnesses:
the zero random stream (legal: 0 lies in [0, 1)) and zero math
functions. -/
def trivPrims : Prims :=
  { rand := fun _ => 0, cosF := fun _ => 0, sinF := fun _ => 0,
    sqrtF := fun _ => 0, piF := 0 }

/-- C1: two runs of the core computation (Simulation.calculate_positions)
from the same construction-time state - the generator seeded once with
the fixed, non-time-based seed, hence the same primitive streams, and the
same configuration constants, which are fixed definitions - produce
identical spawn traces (record-for-record, hence byte-identical once
serialised), including spawn radius, spawn angle, and default colors. -/
theorem spherique_C1 (p : Prims) (s1 s2 : SimState)
    (h1 : s1 = Simulation.init) (h2 : s2 = Simulation.init) :
    (Simulation.calculate_positions p s1).trace =
      (Simulation.calculate_positions p s2).trace := by
  rw [h1, h2]

/-- Witness for C1 at the concrete seeded initial state. -/
theorem spherique_C1_witness :
    (Simulation.init = Simulation.init ∧ Simulation.init = Simulation.init) ∧
    (Simulation.calculate_positions trivPrims Simulation.init).trace =
      (Simulation.calculate_positions trivPrims Simulation.init).trace :=
  ⟨⟨rfl, rfl⟩, spherique_C1 trivPrims Simulation.init Simulation.init rfl rfl⟩

/-- C2: the integration step Ball.update computes v = position -
previous_position from the incoming state, then sets previous_position
to (a copy of) the current position, then sets position to position + v
+ acceleration * dt^2, and resets the acceleration accumulator to zero;
radius, mass, step_added and color are unchanged. -/
theorem spherique_C2 (b : Ball) (dt : ℚ) :
    b.update dt =
      { position := b.position + (b.position - b.old_position) + (dt * dt) • b.acceleration,
        old_position := b.position,
        acceleration := 0,
        radius := b.radius,
        mass := b.mass,
        step_added := b.step_added,
        color := b.color } := rfl

/-- C7: at capacity, add_ball removes the earliest-added live ball
(the front of the insertion-ordered list) before appending the new one,
and the live count stays at or below MAX_OBJECTS after every completed
step and after any number of steps. -/
theorem spherique_C7 (p : Prims) (balls : List Ball) (b : Ball) (s : SimState) (n : ℕ)
    (hcap : Config.MAX_OBJECTS ≤ balls.length)
    (hs : s.balls.length ≤ Config.MAX_OBJECTS) :
    Simulation.add_ball balls b = balls.tail ++ [b] ∧
    (Simulation.stepOnce p s).balls.length ≤ Config.MAX_OBJECTS ∧
    (Simulation.runSteps p n s).balls.length ≤ Config.MAX_OBJECTS :=
  ⟨Simulation.add_ball_of_cap balls b hcap,
   Simulation.stepOnce_length_le p s hs,
   Simulation.runSteps_length_le p n s hs⟩

/-- Witness for C7: a full list of 900 balls evicts its front, and the
empty initial state stays within capacity. -/
theorem spherique_C7_witness :
    (Config.MAX_OBJECTS ≤ (List.replicate 900 (default : Ball)).length ∧
     Simulation.init.balls.length ≤ Config.MAX_OBJECTS) ∧
    (Simulation.add_ball (List.replicate 900 (default : Ball)) default =
        (List.replicate 900 (default : Ball)).tail ++ [default] ∧
     (Simulation.stepOnce trivPrims Simulation.init).balls.length ≤ Config.MAX_OBJECTS ∧
     (Simulation.runSteps trivPrims 2 Simulation.init).balls.length ≤ Config.MAX_OBJECTS) :=
  ⟨⟨by rw [List.length_replicate]; exact Nat.le_refl 900, Nat.zero_le _⟩,
   spherique_C7 trivPrims (List.replicate 900 default) default Simulation.init 2
     (by rw [List.length_replicate]; exact Nat.le_refl 900) (Nat.zero_le _)⟩

/-- C10: in the core run the scheduler only calls add_ball under the
guard requiring the live count to be strictly below MAX_OBJECTS, and
under that guard add_ball is a plain append - the FIFO eviction branch
never executes - so the live count never drops: it is non-decreasing
across each step and across the whole calculate_positions run. -/
theorem spherique_C10 (p : Prims) (s : SimState) (b : Ball)
    (h : s.balls.length < Config.MAX_OBJECTS) :
    Simulation.add_ball s.balls b = s.balls ++ [b] ∧
    s.balls.length ≤ (Simulation.stepOnce p s).balls.length ∧
    s.balls.length ≤ (Simulation.calculate_positions p s).balls.length :=
  ⟨Simulation.add_ball_of_lt s.balls b h,
   Simulation.stepOnce_length_ge p s,
   Simulation.runSteps_length_ge p _ s⟩

/-- Witness for C10 at the empty initial state. -/
theorem spherique_C10_witness :
    (Simulation.init.balls.length < Config.MAX_OBJECTS) ∧
    (Simulation.add_ball Simulation.init.balls default = Simulation.init.balls ++ [default] ∧
     Simulation.init.balls.length ≤ (Simulation.stepOnce trivPrims Simulation.init).balls.length ∧
     Simulation.init.balls.length ≤
       (Simulation.calculate_positions trivPrims Simulation.init).balls.length) :=
  ⟨by simp [Simulation.init, Config.MAX_OBJECTS],
   spherique_C10 trivPrims Simulation.init default
     (by simp [Simulation.init, Config.MAX_OBJECTS])⟩

/-- Formula written from the spec (§4.1): per-axis clamp keeping the
circle inside [0, bound] when it extends past the lower or upper bound. -/
def clampAxis (pos r bound : ℚ) : ℚ :=
  if pos - r < 0 then r else if pos + r > bound then bound - r else pos

/-- Formula written from the spec (§4.1): per-axis velocity, reflected
and attenuated by BOUNCE_LOSS exactly when that axis bound was
violated. -/
def reflectAxis (pos v r bound : ℚ) : ℚ :=
  if pos - r < 0 then -v * Config.BOUNCE_LOSS
  else if pos + r > bound then -v * Config.BOUNCE_LOSS
  else v

/-- The spec formula for the clamped position of a ball. -/
def Ball.clampedPos (b : Ball) : Vec2 :=
  ⟨clampAxis b.position.x b.radius Config.WIDTH,
   clampAxis b.position.y b.radius Config.HEIGHT⟩

/-- The spec formula for the (possibly axis-reflected) velocity of a
ball, derived from position - old_position. -/
def Ball.reflectedVel (b : Ball) : Vec2 :=
  ⟨reflectAxis b.position.x (b.position.x - b.old_position.x) b.radius Config.WIDTH,
   reflectAxis b.position.y (b.position.y - b.old_position.y) b.radius Config.HEIGHT⟩

/-- The boundary-constraint pass computes exactly the spec formulas:
the clamped position, and the previous position re-derived from the
(possibly axis-reflected) velocity scaled by COLLISION_DAMPING. -/
theorem Ball.apply_constraints_eq (b : Ball) :
    b.apply_constraints =
      { b with
        position := b.clampedPos,
        old_position := b.clampedPos - Config.COLLISION_DAMPING • b.reflectedVel } := by
  unfold Ball.apply_constraints Ball.clampedPos Ball.reflectedVel clampAxis reflectAxis
  simp only [Vec2.sub_x, Vec2.sub_y]
  split_ifs <;> rfl

/-- The per-axis clamp keeps the circle inside [0, bound] whenever the
diameter fits in the interval. -/
theorem clampAxis_mem (pos r bound : ℚ) (_h0 : 0 ≤ r) (h : r + r ≤ bound) :
    r ≤ clampAxis pos r bound ∧ clampAxis pos r bound ≤ bound - r := by
  unfold clampAxis
  split_ifs with ha hb
  · constructor <;> linarith
  · constructor <;> linarith
  · constructor <;> linarith

/-- C3: after apply_constraints, (a) the circle lies fully inside the
world (radius ≤ x ≤ WIDTH - radius and radius ≤ y ≤ HEIGHT - radius);
(b) the resulting position is the per-axis clamp, with the velocity of a
violated axis replaced by -v * BOUNCE_LOSS; and (c) old_position is
recomputed as position - v2 * COLLISION_DAMPING using the possibly
axis-reflected velocity v2, so a wall hit attenuates velocity by both
coefficients; no other field changes. -/
theorem spherique_C3 (b : Ball)
    (h1 : Config.MIN_RADIUS ≤ b.radius) (h2 : b.radius ≤ Config.MAX_RADIUS) :
    (b.radius ≤ (b.apply_constraints).position.x ∧
     (b.apply_constraints).position.x ≤ Config.WIDTH - b.radius ∧
     b.radius ≤ (b.apply_constraints).position.y ∧
     (b.apply_constraints).position.y ≤ Config.HEIGHT - b.radius) ∧
    (b.apply_constraints).position = b.clampedPos ∧
    (b.apply_constraints).old_position =
      (b.apply_constraints).position - Config.COLLISION_DAMPING • b.reflectedVel ∧
    (b.apply_constraints).acceleration = b.acceleration ∧
    (b.apply_constraints).radius = b.radius ∧
    (b.apply_constraints).mass = b.mass ∧
    (b.apply_constraints).step_added = b.step_added ∧
    (b.apply_constraints).color = b.color := by
  have h1q : (5 : ℚ) ≤ b.radius := h1
  have h2q : b.radius ≤ (28 : ℚ) := h2
  have hx := clampAxis_mem b.position.x b.radius Config.WIDTH (by linarith)
    (by show b.radius + b.radius ≤ (1000 : ℚ); linarith)
  have hy := clampAxis_mem b.position.y b.radius Config.HEIGHT (by linarith)
    (by show b.radius + b.radius ≤ (1000 : ℚ); linarith)
  rw [Ball.apply_constraints_eq b]
  exact ⟨⟨hx.1, hx.2, hy.1, hy.2⟩, rfl, rfl, rfl, rfl, rfl, rfl, rfl⟩

/-- A concrete ball violating both the lower x bound and the upper y
bound, used by the C3 witness. -/
def wball3 : Ball :=
  { position := ⟨-3, 1005⟩, old_position := ⟨0, 0⟩, acceleration := 0,
    radius := 5, mass := 10, step_added := 0, color := (1, 2, 3) }

/-- Witness for C3 at a concrete ball out of bounds on both axes. -/
theorem spherique_C3_witness :
    (Config.MIN_RADIUS ≤ wball3.radius ∧ wball3.radius ≤ Config.MAX_RADIUS) ∧
    ((wball3.radius ≤ (wball3.apply_constraints).position.x ∧
      (wball3.apply_constraints).position.x ≤ Config.WIDTH - wball3.radius ∧
      wball3.radius ≤ (wball3.apply_constraints).position.y ∧
      (wball3.apply_constraints).position.y ≤ Config.HEIGHT - wball3.radius) ∧
     (wball3.apply_constraints).position = wball3.clampedPos ∧
     (wball3.apply_constraints).old_position =
       (wball3.apply_constraints).position -
         Config.COLLISION_DAMPING • wball3.reflectedVel ∧
     (wball3.apply_constraints).acceleration = wball3.acceleration ∧
     (wball3.apply_constraints).radius = wball3.radius ∧
     (wball3.apply_constraints).mass = wball3.mass ∧
     (wball3.apply_constraints).step_added = wball3.step_added ∧
     (wball3.apply_constraints).color = wball3.color) :=
  ⟨⟨by decide, by decide⟩, spherique_C3 wball3 (by decide) (by decide)⟩

/-- C9: a pair of distinct particles with coincident centers (squared
distance exactly 0) is skipped entirely by the collision pair
resolution: both balls are returned unchanged, no error is signalled,
and the result does not depend on the square-root primitive at all (the
square root and the division by the distance are never evaluated), so in
exact arithmetic no degenerate value is produced. -/
theorem spherique_C9 (p : Prims) (b1 b2 : Ball) (h : b1.position = b2.position) :
    Simulation.collidePair p b1 b2 = (b1, b2) := by
  have hz : (b1.position - b2.position).length_squared = 0 := by
    rw [h]
    simp [Vec2.length_squared]
  simp [Simulation.collidePair, hz]

/-- A concrete ball used by the C9 witness. -/
def wball9 : Ball :=
  { position := ⟨100, 100⟩, old_position := ⟨100, 100⟩, acceleration := 0,
    radius := 5, mass := 10, step_added := 0, color := (1, 2, 3) }

/-- Witness for C9 at two coincident concrete balls. -/
theorem spherique_C9_witness :
    (wball9.position = wball9.position) ∧
    Simulation.collidePair trivPrims wball9 wball9 = (wball9, wball9) :=
  ⟨rfl, spherique_C9 trivPrims wball9 wball9 rfl⟩

/-- A ball whose final position lies just outside the image (x = 1000 on
a 1000-wide image, whose valid x range is 0..999). -/
def cexBall6 : Ball :=
  { position := ⟨1000, 500⟩, old_position := ⟨1000, 500⟩, acceleration := 0,
    radius := 5, mass := 10, step_added := 0, color := (1, 2, 3) }

/-- A trace record carrying a placeholder color, for the C6 scenario. -/
def cexRec6 : TraceRec := ⟨0, 500, 500, 5, 500, 500, 1, 2, 3⟩

/-- The loaded color-source image: WIDTH x HEIGHT, constant pixel. -/
def cexImage6 : Image := ⟨1000, 1000, fun _ _ => (7, 7, 7)⟩

/-- Counterexample to C6 as stated: with the image loaded and one
particle whose sampled final position falls outside the image bounds,
map_colors raises (IndexError, modelled as Except.error) instead of
retaining the placeholder color of the trace record. -/
theorem spherique_C6_cex :
    Simulation.map_colors cexImage6 [cexBall6] [cexRec6] = Except.error () ∧
    Simulation.map_colors cexImage6 [cexBall6] [cexRec6] ≠ Except.ok [cexRec6] := by
  have h1 : Simulation.map_colors cexImage6 [cexBall6] [cexRec6] = Except.error () := rfl
  refine ⟨h1, ?_⟩
  rw [h1]
  intro hcontra
  exact Except.noConfusion hcontra

/-- C6 (amended): if the color-source image is unavailable the color
post-process is skipped entirely, so every placeholder color of the
trace is retained unchanged and no error is raised; but when the image
is loaded and a particle's sampled (truncated) final position falls
outside the image bounds, the pixel lookup raises an error (IndexError)
instead of retaining the placeholder color. -/
theorem spherique_C6 (img : Image) (b : Ball) (line : TraceRec)
    (balls : List Ball) (lines : List TraceRec)
    (hout : ¬ (0 ≤ pytrunc b.position.x ∧ pytrunc b.position.x < img.w ∧
               0 ≤ pytrunc b.position.y ∧ pytrunc b.position.y < img.h)) :
    Simulation.finishRun none balls lines = Except.ok lines ∧
    Simulation.map_colors img [b] [line] = Except.error () := by
  constructor
  · rfl
  · show Simulation.map_colorsGo img (sortedByStepAdded [b]) [line] = Except.error ()
    have hsorted : sortedByStepAdded [b] = [b] := rfl
    rw [hsorted]
    show (do
      let c ← Simulation.getpixel img (pytrunc b.position.x) (pytrunc b.position.y)
      let rest ← Simulation.map_colorsGo img [] []
      pure ({ line with r := c.1, g := c.2.1, b := c.2.2 } :: rest)) = Except.error ()
    unfold Simulation.getpixel
    rw [if_neg hout]
    rfl

/-- Witness for C6 (amended) at the concrete out-of-bounds scenario. -/
theorem spherique_C6_witness :
    (¬ (0 ≤ pytrunc cexBall6.position.x ∧ pytrunc cexBall6.position.x < cexImage6.w ∧
        0 ≤ pytrunc cexBall6.position.y ∧ pytrunc cexBall6.position.y < cexImage6.h)) ∧
    (Simulation.finishRun none [] [cexRec6] = Except.ok [cexRec6] ∧
     Simulation.map_colors cexImage6 [cexBall6] [cexRec6] = Except.error ()) :=
  ⟨by decide, spherique_C6 cexImage6 cexBall6 cexRec6 [] [cexRec6] (by decide)⟩

/-- C4: for an overlapping pair (0 < dist_sq < (r1+r2)^2, dist the
square root of dist_sq as computed by the float primitive), the pair
resolution applies exactly p1.position += n * overlap * (m2/(m1+m2)) *
COLLISION_DAMPING and p2.position -= n * overlap * (m1/(m1+m2)) *
COLLISION_DAMPING, with n = delta/dist the unit normal from p2 to p1 and
overlap = (r1+r2-dist)/2, and touches nothing else; consequently the
mass-weighted corrections are antiparallel with m1*corr1 = -m2*corr2, so
the ratio of the two correction magnitudes is the inverse ratio of the
masses. -/
theorem spherique_C4 (p : Prims) (b1 b2 : Ball) (dist : ℚ)
    (hm1 : 0 < b1.mass) (hm2 : 0 < b2.mass)
    (hdist : dist = p.sqrtF ((b1.position - b2.position).length_squared))
    (hsq : dist * dist = (b1.position - b2.position).length_squared)
    (hdp : 0 < dist)
    (hover : (b1.position - b2.position).length_squared <
      (b1.radius + b2.radius) ^ 2) :
    ((Simulation.collidePair p b1 b2).1.position =
        b1.position +
          ((b2.mass / (b1.mass + b2.mass)) * Config.COLLISION_DAMPING *
              ((b1.radius + b2.radius - dist) / 2)) •
            ((1 / dist) • (b1.position - b2.position)) ∧
     (Simulation.collidePair p b1 b2).2.position =
        b2.position -
          ((b1.mass / (b1.mass + b2.mass)) * Config.COLLISION_DAMPING *
              ((b1.radius + b2.radius - dist) / 2)) •
            ((1 / dist) • (b1.position - b2.position)) ∧
     (Simulation.collidePair p b1 b2).1.old_position = b1.old_position ∧
     (Simulation.collidePair p b1 b2).1.acceleration = b1.acceleration ∧
     (Simulation.collidePair p b1 b2).1.radius = b1.radius ∧
     (Simulation.collidePair p b1 b2).1.mass = b1.mass ∧
     (Simulation.collidePair p b1 b2).2.old_position = b2.old_position ∧
     (Simulation.collidePair p b1 b2).2.acceleration = b2.acceleration ∧
     (Simulation.collidePair p b1 b2).2.radius = b2.radius ∧
     (Simulation.collidePair p b1 b2).2.mass = b2.mass) ∧
    b1.mass • ((Simulation.collidePair p b1 b2).1.position - b1.position) +
        b2.mass • ((Simulation.collidePair p b1 b2).2.position - b2.position) = 0 ∧
    b1.mass ^ 2 *
        ((Simulation.collidePair p b1 b2).1.position - b1.position).length_squared =
      b2.mass ^ 2 *
        ((Simulation.collidePair p b1 b2).2.position - b2.position).length_squared := by
  have hpos : 0 < (b1.position - b2.position).length_squared := by
    rw [← hsq]; positivity
  have htm : b1.mass + b2.mass ≠ 0 := (by linarith : (0 : ℚ) < b1.mass + b2.mass).ne'
  have hdne : dist ≠ 0 := hdp.ne'
  have hres : Simulation.collidePair p b1 b2 =
      ({ b1 with
          position := b1.position +
            (Config.COLLISION_DAMPING * (b2.mass / (b1.mass + b2.mass))) •
              (((b1.radius + b2.radius - dist) * (1 / 2)) •
                ((1 / dist) • (b1.position - b2.position))) },
       { b2 with
          position := b2.position -
            (Config.COLLISION_DAMPING * (b1.mass / (b1.mass + b2.mass))) •
              (((b1.radius + b2.radius - dist) * (1 / 2)) •
                ((1 / dist) • (b1.position - b2.position))) }) := by
    unfold Simulation.collidePair
    rw [if_pos ⟨hpos, hover⟩, ← hdist]
  rw [hres]
  refine ⟨⟨?_, ?_, rfl, rfl, rfl, rfl, rfl, rfl, rfl, rfl⟩, ?_, ?_⟩
  · apply Vec2.ext_xy <;> simp <;> ring
  · apply Vec2.ext_xy <;> simp <;> ring
  · apply Vec2.ext_xy <;> simp <;> field_simp <;> ring
  · simp only [Vec2.length_squared, Vec2.sub_x, Vec2.sub_y, Vec2.add_x, Vec2.add_y,
      Vec2.smul_x, Vec2.smul_y]
    field_simp
    ring

/-- Primitives for the C4 witness: a square-root table knowing 25. -/
def wprims4 : Prims :=
  { rand := fun _ => 0, cosF := fun _ => 0, sinF := fun _ => 0,
    sqrtF := fun q => if q = 25 then 5 else 0, piF := 0 }

/-- First ball of the C4 witness pair (center (3,4), radius 3, mass 4). -/
def wball4a : Ball :=
  { position := ⟨3, 4⟩, old_position := ⟨3, 4⟩, acceleration := 0,
    radius := 3, mass := 4, step_added := 0, color := (0, 0, 0) }

/-- Second ball of the C4 witness pair (center (0,0), radius 3, mass 2). -/
def wball4b : Ball :=
  { position := ⟨0, 0⟩, old_position := ⟨0, 0⟩, acceleration := 0,
    radius := 3, mass := 2, step_added := 0, color := (0, 0, 0) }

/-- Witness for C4: the overlapping pair at distance 5 with radii 3+3. -/
theorem spherique_C4_witness :
    ((0 : ℚ) < wball4a.mass ∧ (0 : ℚ) < wball4b.mass ∧
     (5 : ℚ) = wprims4.sqrtF ((wball4a.position - wball4b.position).length_squared) ∧
     (5 : ℚ) * 5 = (wball4a.position - wball4b.position).length_squared ∧
     (0 : ℚ) < 5 ∧
     (wball4a.position - wball4b.position).length_squared <
       (wball4a.radius + wball4b.radius) ^ 2) ∧
    (((Simulation.collidePair wprims4 wball4a wball4b).1.position =
        wball4a.position +
          ((wball4b.mass / (wball4a.mass + wball4b.mass)) * Config.COLLISION_DAMPING *
              ((wball4a.radius + wball4b.radius - 5) / 2)) •
            ((1 / (5 : ℚ)) • (wball4a.position - wball4b.position)) ∧
      (Simulation.collidePair wprims4 wball4a wball4b).2.position =
        wball4b.position -
          ((wball4a.mass / (wball4a.mass + wball4b.mass)) * Config.COLLISION_DAMPING *
              ((wball4a.radius + wball4b.radius - 5) / 2)) •
            ((1 / (5 : ℚ)) • (wball4a.position - wball4b.position)) ∧
      (Simulation.collidePair wprims4 wball4a wball4b).1.old_position = wball4a.old_position ∧
      (Simulation.collidePair wprims4 wball4a wball4b).1.acceleration = wball4a.acceleration ∧
      (Simulation.collidePair wprims4 wball4a wball4b).1.radius = wball4a.radius ∧
      (Simulation.collidePair wprims4 wball4a wball4b).1.mass = wball4a.mass ∧
      (Simulation.collidePair wprims4 wball4a wball4b).2.old_position = wball4b.old_position ∧
      (Simulation.collidePair wprims4 wball4a wball4b).2.acceleration = wball4b.acceleration ∧
      (Simulation.collidePair wprims4 wball4a wball4b).2.radius = wball4b.radius ∧
      (Simulation.collidePair wprims4 wball4a wball4b).2.mass = wball4b.mass) ∧
     wball4a.mass • ((Simulation.collidePair wprims4 wball4a wball4b).1.position -
         wball4a.position) +
       wball4b.mass • ((Simulation.collidePair wprims4 wball4a wball4b).2.position -
         wball4b.position) = 0 ∧
     wball4a.mass ^ 2 *
         ((Simulation.collidePair wprims4 wball4a wball4b).1.position -
           wball4a.position).length_squared =
       wball4b.mass ^ 2 *
         ((Simulation.collidePair wprims4 wball4a wball4b).2.position -
           wball4b.position).length_squared) :=
  ⟨⟨by norm_num [wball4a], by norm_num [wball4b],
    by norm_num [wprims4, wball4a, wball4b, Vec2.length_squared],
    by norm_num [wball4a, wball4b, Vec2.length_squared], by norm_num,
    by norm_num [wball4a, wball4b, Vec2.length_squared]⟩,
   spherique_C4 wprims4 wball4a wball4b 5 (by norm_num [wball4a]) (by norm_num [wball4b])
     (by norm_num [wprims4, wball4a, wball4b, Vec2.length_squared])
     (by norm_num [wball4a, wball4b, Vec2.length_squared]) (by norm_num)
     (by norm_num [wball4a, wball4b, Vec2.length_squared])⟩

/-- C8: on a step where step mod SPAWN_INTERVAL = 0 and the live count
is below MAX_OBJECTS, exactly one ball is appended, created at the fixed
origin (WIDTH/2, HEIGHT/2), with old_position = position - v * FIXED_DT
for a velocity v of fixed magnitude 40 in the direction of the randomly
drawn angle, and exactly one trace record (built from that ball) is
appended at that moment; assuming each random.random() output lies in
[0, 1), the spawned radius, drawn as uniform(MIN_RADIUS, MAX_RADIUS),
lies in [MIN_RADIUS, MAX_RADIUS]. -/
theorem spherique_C8 (p : Prims) (s : SimState)
    (hmod : s.current_step % Config.SPAWN_INTERVAL = 0)
    (hcount : s.balls.length < Config.MAX_OBJECTS)
    (hrand : ∀ k, 0 ≤ p.rand k ∧ p.rand k < 1) :
    ∃ b θ,
      (Simulation.spawnStep p s).balls = s.balls ++ [b] ∧
      (Simulation.stepOnce p s).balls =
        Simulation.update p Config.FIXED_DT (s.balls ++ [b]) ∧
      (Simulation.stepOnce p s).trace = s.trace ++
        [⟨s.current_step, b.position.x, b.position.y, b.radius,
          b.old_position.x, b.old_position.y, b.color.1, b.color.2.1, b.color.2.2⟩] ∧
      b.position = ⟨Config.WIDTH / 2, Config.HEIGHT / 2⟩ ∧
      b.old_position = b.position -
        Config.FIXED_DT • (⟨p.cosF θ * 40, p.sinF θ * 40⟩ : Vec2) ∧
      Config.MIN_RADIUS ≤ b.radius ∧ b.radius ≤ Config.MAX_RADIUS := by
  have hguard : s.current_step % Config.SPAWN_INTERVAL = 0 ∧
      s.balls.length < Config.MAX_OBJECTS := ⟨hmod, hcount⟩
  have hballs : (Simulation.spawnStep p s).balls =
      s.balls ++ [(Simulation.spawnBall p s).1] :=
    Simulation.add_ball_of_lt s.balls (Simulation.spawnBall p s).1 hcount
  have hr0 := (hrand s.randIdx).1
  have hr1 := (hrand s.randIdx).2
  have hradius : (Simulation.spawnBall p s).1.radius =
      Config.MIN_RADIUS + (Config.MAX_RADIUS - Config.MIN_RADIUS) * p.rand s.randIdx := rfl
  have hstep : Simulation.stepOnce p s =
      { Simulation.spawnStep p s with
        balls := Simulation.update p Config.FIXED_DT (Simulation.spawnStep p s).balls,
        current_step := (Simulation.spawnStep p s).current_step + 1 } := by
    simp only [Simulation.stepOnce, if_pos hguard]
  refine ⟨(Simulation.spawnBall p s).1, (Simulation.spawnAK p s).1,
    hballs, ?_, ?_, rfl, rfl, ?_, ?_⟩
  · rw [hstep, ← hballs]
  · rw [hstep]
    rfl
  · rw [hradius]
    show (5 : ℚ) ≤ 5 + (28 - 5) * p.rand s.randIdx
    linarith
  · rw [hradius]
    show (5 : ℚ) + (28 - 5) * p.rand s.randIdx ≤ 28
    linarith

/-- Witness for C8 at the seeded initial state with the zero stream. -/
theorem spherique_C8_witness :
    (Simulation.init.current_step % Config.SPAWN_INTERVAL = 0 ∧
     Simulation.init.balls.length < Config.MAX_OBJECTS ∧
     (∀ k, 0 ≤ trivPrims.rand k ∧ trivPrims.rand k < 1)) ∧
    (∃ b θ,
      (Simulation.spawnStep trivPrims Simulation.init).balls =
        Simulation.init.balls ++ [b] ∧
      (Simulation.stepOnce trivPrims Simulation.init).balls =
        Simulation.update trivPrims Config.FIXED_DT (Simulation.init.balls ++ [b]) ∧
      (Simulation.stepOnce trivPrims Simulation.init).trace = Simulation.init.trace ++
        [⟨Simulation.init.current_step, b.position.x, b.position.y, b.radius,
          b.old_position.x, b.old_position.y, b.color.1, b.color.2.1, b.color.2.2⟩] ∧
      b.position = ⟨Config.WIDTH / 2, Config.HEIGHT / 2⟩ ∧
      b.old_position = b.position -
        Config.FIXED_DT • (⟨trivPrims.cosF θ * 40, trivPrims.sinF θ * 40⟩ : Vec2) ∧
      Config.MIN_RADIUS ≤ b.radius ∧ b.radius ≤ Config.MAX_RADIUS) :=
  ⟨⟨rfl, by decide, fun k => ⟨le_refl 0, by norm_num [trivPrims]⟩⟩,
   spherique_C8 trivPrims Simulation.init rfl (by decide)
     (fun k => ⟨le_refl 0, by norm_num [trivPrims]⟩)⟩

/-- Points less than one cell apart land in the same or an adjacent
floor-division cell. -/
theorem floor_div_le_succ {x y c : ℚ} (hc : 0 < c) (h : |x - y| < c) :
    ⌊y / c⌋ ≤ ⌊x / c⌋ + 1 := by
  have habs := abs_lt.mp h
  have hyx : y < x + c := by linarith [habs.1, habs.2]
  have hdiv : y / c < (x + c) / c := (div_lt_div_iff_of_pos_right hc).mpr hyx
  rw [add_div, div_self hc.ne'] at hdiv
  have h2 := Int.floor_le_floor hdiv.le
  rwa [Int.floor_add_one] at h2

/-- Every valid index appears in the grid bucket of its own cell. -/
theorem mem_update_grid_self (balls : List Ball) (k : ℕ) (hk : k < balls.length) :
    k ∈ Simulation.update_grid balls
      (Simulation.get_cell (balls.getD k default).position) := by
  unfold Simulation.update_grid
  exact List.mem_filter.mpr ⟨List.mem_range.mpr hk, by simp⟩

/-- The 3x3 neighborhood query returns every index stored in a cell at
Chebyshev distance at most one from the query cell. -/
theorem mem_get_nearby_of_adjacent (grid : ℤ × ℤ → List ℕ) (c1 c2 : ℤ × ℤ) (k : ℕ)
    (h1 : |c2.1 - c1.1| ≤ 1) (h2 : |c2.2 - c1.2| ≤ 1) (hmem : k ∈ grid c2) :
    k ∈ Simulation.get_nearby grid c1 := by
  unfold Simulation.get_nearby
  have ha1 := abs_le.mp h1
  have ha2 := abs_le.mp h2
  have hd1 : c2.1 - c1.1 = -1 ∨ c2.1 - c1.1 = 0 ∨ c2.1 - c1.1 = 1 := by omega
  have hd2 : c2.2 - c1.2 = -1 ∨ c2.2 - c1.2 = 0 ∨ c2.2 - c1.2 = 1 := by omega
  refine List.mem_flatMap.mpr ⟨c2.1 - c1.1, ?_, ?_⟩
  · rcases hd1 with h | h | h <;> rw [h] <;> simp
  · refine List.mem_flatMap.mpr ⟨c2.2 - c1.2, ?_, ?_⟩
    · rcases hd2 with h | h | h <;> rw [h] <;> simp
    · have hc : (c1.1 + (c2.1 - c1.1), c1.2 + (c2.2 - c1.2)) = c2 := by
        have e1 : c1.1 + (c2.1 - c1.1) = c2.1 := by ring
        have e2 : c1.2 + (c2.2 - c1.2) = c2.2 := by ring
        rw [e1, e2]
      rw [hc]
      exact hmem

/-- C5: with cell size fixed at 2*MAX_RADIUS = 56, any two distinct
balls whose circles overlap (squared center distance below
(r_i + r_j)^2, radii at most MAX_RADIUS) land, when the grid is rebuilt,
in cells that differ by at most 1 per axis, so the 3x3 neighborhood
query yields each of them among the neighbors of the other: every
overlapping pair is visited in both directions during a full sweep. -/
theorem spherique_C5 (balls : List Ball) (i j : ℕ)
    (hi : i < balls.length) (hj : j < balls.length) (_hij : i ≠ j)
    (hri : 0 ≤ (balls.getD i default).radius)
    (hrj : 0 ≤ (balls.getD j default).radius)
    (hmaxi : (balls.getD i default).radius ≤ Config.MAX_RADIUS)
    (hmaxj : (balls.getD j default).radius ≤ Config.MAX_RADIUS)
    (hover : ((balls.getD i default).position -
        (balls.getD j default).position).length_squared <
      ((balls.getD i default).radius + (balls.getD j default).radius) ^ 2) :
    (|(Simulation.get_cell (balls.getD i default).position).1 -
        (Simulation.get_cell (balls.getD j default).position).1| ≤ 1 ∧
     |(Simulation.get_cell (balls.getD i default).position).2 -
        (Simulation.get_cell (balls.getD j default).position).2| ≤ 1) ∧
    j ∈ Simulation.get_nearby (Simulation.update_grid balls)
      (Simulation.get_cell (balls.getD i default).position) ∧
    i ∈ Simulation.get_nearby (Simulation.update_grid balls)
      (Simulation.get_cell (balls.getD j default).position) := by
  set a := balls.getD i default with ha
  set d := balls.getD j default with hd
  have hcell0 : (0 : ℚ) < Config.CELL_SIZE := by
    norm_num [Config.CELL_SIZE, Config.MAX_RADIUS]
  have h56 : Config.CELL_SIZE = (56 : ℚ) := by
    norm_num [Config.CELL_SIZE, Config.MAX_RADIUS]
  have hra : a.radius ≤ (28 : ℚ) := hmaxi
  have hrd : d.radius ≤ (28 : ℚ) := hmaxj
  have hsq : (a.position - d.position).length_squared < 3136 := by
    have hge : (0 : ℚ) ≤ a.radius + d.radius := add_nonneg hri hrj
    have hb : (a.radius + d.radius) ^ 2 ≤ (3136 : ℚ) := by nlinarith
    linarith
  have hls : (a.position - d.position).length_squared =
      (a.position.x - d.position.x) * (a.position.x - d.position.x) +
      (a.position.y - d.position.y) * (a.position.y - d.position.y) := by
    simp [Vec2.length_squared]
  have hxb : |a.position.x - d.position.x| < 56 := by
    rw [abs_lt]
    constructor <;> nlinarith [mul_self_nonneg (a.position.y - d.position.y)]
  have hyb : |a.position.y - d.position.y| < 56 := by
    rw [abs_lt]
    constructor <;> nlinarith [mul_self_nonneg (a.position.x - d.position.x)]
  have ex1 : ⌊d.position.x / Config.CELL_SIZE⌋ ≤ ⌊a.position.x / Config.CELL_SIZE⌋ + 1 :=
    floor_div_le_succ hcell0 (by rw [h56]; exact hxb)
  have ex2 : ⌊a.position.x / Config.CELL_SIZE⌋ ≤ ⌊d.position.x / Config.CELL_SIZE⌋ + 1 :=
    floor_div_le_succ hcell0 (by rw [h56, abs_sub_comm]; exact hxb)
  have ey1 : ⌊d.position.y / Config.CELL_SIZE⌋ ≤ ⌊a.position.y / Config.CELL_SIZE⌋ + 1 :=
    floor_div_le_succ hcell0 (by rw [h56]; exact hyb)
  have ey2 : ⌊a.position.y / Config.CELL_SIZE⌋ ≤ ⌊d.position.y / Config.CELL_SIZE⌋ + 1 :=
    floor_div_le_succ hcell0 (by rw [h56, abs_sub_comm]; exact hyb)
  have hd1 : |(Simulation.get_cell a.position).1 - (Simulation.get_cell d.position).1| ≤ 1 := by
    show |⌊a.position.x / Config.CELL_SIZE⌋ - ⌊d.position.x / Config.CELL_SIZE⌋| ≤ 1
    rw [abs_le]
    exact ⟨by omega, by omega⟩
  have hd2 : |(Simulation.get_cell a.position).2 - (Simulation.get_cell d.position).2| ≤ 1 := by
    show |⌊a.position.y / Config.CELL_SIZE⌋ - ⌊d.position.y / Config.CELL_SIZE⌋| ≤ 1
    rw [abs_le]
    exact ⟨by omega, by omega⟩
  have hd1r : |(Simulation.get_cell d.position).1 - (Simulation.get_cell a.position).1| ≤ 1 := by
    rw [abs_sub_comm]; exact hd1
  have hd2r : |(Simulation.get_cell d.position).2 - (Simulation.get_cell a.position).2| ≤ 1 := by
    rw [abs_sub_comm]; exact hd2
  have hmi : i ∈ Simulation.update_grid balls (Simulation.get_cell a.position) := by
    rw [ha]; exact mem_update_grid_self balls i hi
  have hmj : j ∈ Simulation.update_grid balls (Simulation.get_cell d.position) := by
    rw [hd]; exact mem_update_grid_self balls j hj
  exact ⟨⟨hd1, hd2⟩,
    mem_get_nearby_of_adjacent (Simulation.update_grid balls)
      (Simulation.get_cell a.position) (Simulation.get_cell d.position) j hd1r hd2r hmj,
    mem_get_nearby_of_adjacent (Simulation.update_grid balls)
      (Simulation.get_cell d.position) (Simulation.get_cell a.position) i hd1 hd2 hmi⟩

/-- First ball of the C5 witness pair (center (10,10), radius 10). -/
def wball5a : Ball :=
  { position := ⟨10, 10⟩, old_position := ⟨10, 10⟩, acceleration := 0,
    radius := 10, mass := 1, step_added := 0, color := (0, 0, 0) }

/-- Second ball of the C5 witness pair (center (20,10), radius 10). -/
def wball5b : Ball :=
  { position := ⟨20, 10⟩, old_position := ⟨20, 10⟩, acceleration := 0,
    radius := 10, mass := 1, step_added := 1, color := (0, 0, 0) }

/-- Witness for C5 at a concrete overlapping pair. -/
theorem spherique_C5_witness :
    ((0 : ℕ) < [wball5a, wball5b].length ∧ (1 : ℕ) < [wball5a, wball5b].length ∧
     (0 : ℕ) ≠ 1 ∧
     (0 : ℚ) ≤ ([wball5a, wball5b].getD 0 default).radius ∧
     (0 : ℚ) ≤ ([wball5a, wball5b].getD 1 default).radius ∧
     ([wball5a, wball5b].getD 0 default).radius ≤ Config.MAX_RADIUS ∧
     ([wball5a, wball5b].getD 1 default).radius ≤ Config.MAX_RADIUS ∧
     (([wball5a, wball5b].getD 0 default).position -
         ([wball5a, wball5b].getD 1 default).position).length_squared <
       (([wball5a, wball5b].getD 0 default).radius +
         ([wball5a, wball5b].getD 1 default).radius) ^ 2) ∧
    ((|(Simulation.get_cell ([wball5a, wball5b].getD 0 default).position).1 -
        (Simulation.get_cell ([wball5a, wball5b].getD 1 default).position).1| ≤ 1 ∧
      |(Simulation.get_cell ([wball5a, wball5b].getD 0 default).position).2 -
        (Simulation.get_cell ([wball5a, wball5b].getD 1 default).position).2| ≤ 1) ∧
     1 ∈ Simulation.get_nearby (Simulation.update_grid [wball5a, wball5b])
       (Simulation.get_cell ([wball5a, wball5b].getD 0 default).position) ∧
     0 ∈ Simulation.get_nearby (Simulation.update_grid [wball5a, wball5b])
       (Simulation.get_cell ([wball5a, wball5b].getD 1 default).position)) :=
  ⟨⟨by decide, by decide, by decide,
    (by norm_num [wball5a] : (0 : ℚ) ≤ wball5a.radius),
    (by norm_num [wball5b] : (0 : ℚ) ≤ wball5b.radius),
    (by norm_num [wball5a, Config.MAX_RADIUS] : wball5a.radius ≤ Config.MAX_RADIUS),
    (by norm_num [wball5b, Config.MAX_RADIUS] : wball5b.radius ≤ Config.MAX_RADIUS),
    (by norm_num [wball5a, wball5b, Vec2.length_squared] :
      (wball5a.position - wball5b.position).length_squared <
        (wball5a.radius + wball5b.radius) ^ 2)⟩,
   spherique_C5 [wball5a, wball5b] 0 1 (by decide) (by decide) (by decide)
     ((by norm_num [wball5a] : (0 : ℚ) ≤ wball5a.radius))
     ((by norm_num [wball5b] : (0 : ℚ) ≤ wball5b.radius))
     ((by norm_num [wball5a, Config.MAX_RADIUS] : wball5a.radius ≤ Config.MAX_RADIUS))
     ((by norm_num [wball5b, Config.MAX_RADIUS] : wball5b.radius ≤ Config.MAX_RADIUS))
     ((by norm_num [wball5a, wball5b, Vec2.length_squared] :
       (wball5a.position - wball5b.position).length_squared <
         (wball5a.radius + wball5b.radius) ^ 2))⟩
